import Mathlib

/-!
Shallow embedding of the security core of the backend-yahaho repository:
credential hashing (src/models/User.js), JWT issuance and verification
(src/middleware/auth.js and the auth routers), the OTP challenge state
machine (the send-otp / verify-otp routes), the avatar upload pipelines
and the favorites mutations (the profile routers).

JavaScript numbers used as timestamps are modelled as Nat (milliseconds
for OTP expiry, seconds for JWT claims, matching each site's units).
The bcryptjs library is modelled at its interface as a collision-free
keyed encoding: hashes are an opaque structure determined by the input,
so compare(c, hash(p)) holds exactly when c = p.
-/

/-- Idealized bcrypt digest: the library is modelled as collision-free,
so a digest is determined by the cost factor and the hashed input. -/
structure BcryptHash where
  cost : Nat
  input : String
deriving DecidableEq, Repr

/-- Model of bcrypt.hash(plain, cost). -/
def bcryptHash (plain : String) (cost : Nat) : BcryptHash :=
  { cost := cost, input := plain }

/-- Model of bcrypt.compare(candidate, stored): re-hash the candidate with
the stored cost and compare digests. -/
def bcryptCompare (candidate : String) (stored : BcryptHash) : Bool :=
  stored == bcryptHash candidate stored.cost

/-! ## CredentialStore (src/models/User.js) -/

/-- UserSchema.pre save hook: hashes passwordHash with bcrypt.genSalt(12)
when the field is modified (always the case at registration). -/
def preSaveHashPassword (plaintext : String) : BcryptHash :=
  bcryptHash plaintext 12

/-- UserSchema.methods.comparePassword: bcrypt.compare(candidate, this.passwordHash). -/
def comparePassword (candidate : String) (stored : BcryptHash) : Bool :=
  bcryptCompare candidate stored

/-! ## OTPChallenge (router.post send-otp / verify-otp in the auth router) -/

/-- One document of the OTP collection as the verify-otp route reads and
writes it: email, bcrypt-hashed code, expiry timestamp (ms), attempt
counter, used flag. -/
structure OTPRec where
  email : String
  otp : BcryptHash
  expiresAt : Nat
  attempts : Nat
  used : Bool
deriving DecidableEq, Repr

/-- Outcome of the verify-otp route, one constructor per response branch. -/
inductive OtpOutcome where
  | NotFound
  | Expired
  | Exhausted
  | Invalid
  | Verified
deriving DecidableEq, Repr

/-- Whether a record is matched by the query filter of
OTP.findOne with email e and used false. -/
def otpMatches (e : String) (r : OTPRec) : Bool :=
  r.email == e && r.used == false

/-- Modelled from the spec: the OTP Mongoose schema (models/OTP.js) is not
among the provided sources; per the spec an issued record stores only the
hashed code and expiry "plus ... a zeroed attempt counter" and an
initially clear used flag, which is also what OTP.create with only
email, otp and expiresAt implies. -/
def freshOtpRec (e : String) (code : String) (now : Nat) : OTPRec :=
  { email := e
    otp := bcryptHash code 10
    expiresAt := now + 10 * 60 * 1000
    attempts := 0
    used := false }

/-- The send-otp route: OTP.deleteMany with email e and used false,
then OTP.create of the fresh record (appended to the store). -/
def sendOtp (e : String) (code : String) (now : Nat) (store : List OTPRec) :
    List OTPRec :=
  (store.filter (fun r => !(otpMatches e r))) ++ [freshOtpRec e code now]

/-- The verify-otp route body over the store: OTP.findOne with email e and
used false, then in order the expiry check (expiresAt < now), the
attempts >= 3 check, and the bcrypt comparison; record.save() is the
in-place rewrite of the found document. -/
def verifyOtp (e : String) (cand : String) (now : Nat) :
    List OTPRec → OtpOutcome × List OTPRec
  | [] => (.NotFound, [])
  | r :: rs =>
    if otpMatches e r then
      if r.expiresAt < now then (.Expired, r :: rs)
      else if 3 ≤ r.attempts then (.Exhausted, r :: rs)
      else if bcryptCompare cand r.otp then
        (.Verified, { r with used := true } :: rs)
      else
        (.Invalid, { r with attempts := r.attempts + 1 } :: rs)
    else
      let res := verifyOtp e cand now rs
      (res.1, r :: res.2)

/-- The record the verify-otp route operates on: first store entry with
this email and a clear used flag. -/
def findUnused (e : String) (store : List OTPRec) : Option OTPRec :=
  store.find? (otpMatches e)

/-- Number of unused records a given email holds in the store. -/
def countUnused (e : String) (store : List OTPRec) : Nat :=
  (store.filter (otpMatches e)).length

/-- Derived state of one OTP record at a given time, read off the check
order of the verify-otp route: a used record is Verified, then expiry,
then the attempt cap, otherwise the record is still live (Issued). -/
inductive OtpStatus where
  | Issued
  | Verified
  | Expired
  | Exhausted
deriving DecidableEq, Repr

def otpStatus (r : OTPRec) (now : Nat) : OtpStatus :=
  if r.used then .Verified
  else if r.expiresAt < now then .Expired
  else if 3 ≤ r.attempts then .Exhausted
  else .Issued

/-- Terminal derived states of an OTP record. -/
def otpTerminal (s : OtpStatus) : Prop :=
  s = .Verified ∨ s = .Expired ∨ s = .Exhausted

instance (s : OtpStatus) : Decidable (otpTerminal s) := by
  unfold otpTerminal; infer_instance

/-! ## TokenService (jsonwebtoken, src/middleware/auth.js, auth routers) -/

/-- JWT algorithms relevant to the code: the three HMAC variants the
jsonwebtoken library accepts by default for a string secret, plus the
unsigned "none" algorithm. -/
inductive Alg where
  | HS256
  | HS384
  | HS512
  | AlgNone
deriving DecidableEq, Repr

/-- Claims carried by the tokens this code signs: subject id, role,
issued-at and expiry (seconds). -/
structure Claims where
  sub : String
  role : String
  iat : Nat
  exp : Nat
deriving DecidableEq, Repr

/-- A decoded JWT: its header algorithm, payload, and the secret its
signature was actually produced with (none for an unsigned token). -/
structure Jwt where
  alg : Alg
  claims : Claims
  key : Option String
deriving DecidableEq, Repr

/-- JavaScript falsiness of process.env lookups: undefined or the
empty string. -/
def jsFalsy : Option String → Bool
  | none => true
  | some s => s == ""

/-- JavaScript e1 || e2 over an env lookup and a string literal. -/
def jsOr (e : Option String) (d : String) : String :=
  match e with
  | none => d
  | some s => if s == "" then d else s

/-- Model of jwt.sign(payload, secret, expiresIn): always signs HS256
(the library default), stamping iat := now and exp := now + ttl. -/
def jwtSign (sub role : String) (secret : String) (ttl : Nat) (now : Nat) : Jwt :=
  { alg := .HS256
    claims := { sub := sub, role := role, iat := now, exp := now + ttl }
    key := some secret }

inductive VerifyResult where
  | ok (c : Claims)
  | expired
  | invalid
deriving DecidableEq, Repr

/-- For a string secret and no algorithms option, jsonwebtoken accepts
every HMAC algorithm and never the unsigned one. -/
def defaultHSAlgs : List Alg := [.HS256, .HS384, .HS512]

/-- Model of jwt.verify(token, secret, algorithms): algorithm check,
then signature check against the supplied secret, then expiry. -/
def jwtVerify (t : Jwt) (secret : String) (allowed : List Alg) (now : Nat) :
    VerifyResult :=
  if t.alg ∉ allowed then .invalid
  else if t.key ≠ some secret then .invalid
  else if t.claims.exp ≤ now then .expired
  else .ok t.claims

/-- Response classes of the auth middleware. -/
inductive AuthOutcome where
  | authorized (c : Claims)
  | tokenMissing
  | tokenExpired
  | tokenInvalid
  | configError
deriving DecidableEq, Repr

/-- First variant of src/middleware/auth.js: missing-token check, then
the JWT_SECRET presence check (500 on a falsy secret), then jwt.verify
pinned to algorithms HS256 with the expired/invalid distinction. -/
def authV1 (env : Option String) (tok : Option Jwt) (now : Nat) : AuthOutcome :=
  match tok with
  | none => .tokenMissing
  | some t =>
    if jsFalsy env then .configError
    else
      match jwtVerify t (jsOr env "") [.HS256] now with
      | .ok c => .authorized c
      | .expired => .tokenExpired
      | .invalid => .tokenInvalid

/-- Second variant of src/middleware/auth.js: jwt.verify with
JWT_SECRET || fallback and no algorithms option; every verification
failure collapses into the single 401 Token-is-not-valid response. -/
def authV2 (env : Option String) (tok : Option Jwt) (now : Nat) : AuthOutcome :=
  match tok with
  | none => .tokenMissing
  | some t =>
    match jwtVerify t (jsOr env "fallback_jwt_secret") defaultHSAlgs now with
    | .ok c => .authorized c
    | _ => .tokenInvalid

/-! ## Login routes -/

/-- One user document as the login routes read it. -/
structure UserRec where
  id : String
  email : String
  role : String
  passwordHash : BcryptHash
deriving DecidableEq, Repr

inductive LoginResult where
  | success (token : Jwt)
  | invalidCredentials
  | serverError
deriving DecidableEq, Repr

/-- The legacy login route (and identically its register sibling):
User.findOne by email, bcrypt.compare, then jwt.sign with
JWT_SECRET || fallback and expiresIn 7d (604800 s). -/
def legacyLogin (env : Option String) (users : List UserRec)
    (email pw : String) (now : Nat) : LoginResult :=
  match users.find? (fun u => u.email == email) with
  | none => .invalidCredentials
  | some u =>
    if bcryptCompare pw u.passwordHash then
      .success (jwtSign u.id u.role (jsOr env "fallback_jwt_secret") 604800 now)
    else .invalidCredentials

/-- signAccessToken of the hardened auth router: jwt.sign with
process.env.JWT_SECRET directly (the library throws on a falsy secret,
surfacing as the route's 500) and expiresIn 15m (900 s). -/
def signAccessToken (env : Option String) (u : UserRec) (now : Nat) :
    Option Jwt :=
  if jsFalsy env then none
  else some (jwtSign u.id u.role (jsOr env "") 900 now)

/-- The hardened login route: User.findOne by lowercased email with the
passwordHash selected, bcrypt.compare, then signAccessToken. -/
def hardenedLogin (env : Option String) (users : List UserRec)
    (email pw : String) (now : Nat) : LoginResult :=
  match users.find? (fun u => u.email == email) with
  | none => .invalidCredentials
  | some u =>
    if bcryptCompare pw u.passwordHash then
      match signAccessToken env u now with
      | none => .serverError
      | some t => .success t
    else .invalidCredentials

/-! ## UploadValidator (the two profile routers' upload routes) -/

/-- An uploaded file as the pipelines inspect it: lowercased extension of
the original name, the client-declared MIME type, the MIME type the
file-type library detects from the leading content bytes (none when the
bytes match no known type), and the byte size. -/
structure UploadFile where
  originalExt : String
  declaredMime : String
  detectedMime : Option String
  size : Nat
deriving DecidableEq, Repr

/-- ALLOWED_IMAGE_MIMES of the hardened profile router. -/
def allowedImageMimes : List String :=
  ["image/jpeg", "image/jpg", "image/png", "image/webp", "image/gif"]

/-- Extension allow-list of the hardened router's multer fileFilter. -/
def allowedImageExts : List String :=
  [".jpg", ".jpeg", ".png", ".webp", ".gif"]

/-- MAX_FILE_SIZE of the hardened router: 3 MiB. -/
def maxFileSizeHardened : Nat := 3 * 1024 * 1024

/-- validateAndSecureImage: fileType.fromFile must detect an
allow-listed image MIME, then the staged size is re-checked. -/
def validateAndSecureImage (f : UploadFile) : Bool :=
  match f.detectedMime with
  | none => false
  | some m => m ∈ allowedImageMimes && !(maxFileSizeHardened < f.size)

inductive UploadResult where
  | accepted (storedPath : String)
  | rejected
deriving DecidableEq, Repr

/-- The hardened upload route: multer fileFilter on the extension and the
3 MiB limit gate staging; once staged, validateAndSecureImage runs and a
failure unlinks the staged file before the 400 response. The second
component is the backing store (list of stored paths). -/
def hardenedUpload (f : UploadFile) (disk : List String) (newPath : String) :
    UploadResult × List String :=
  if !(f.originalExt ∈ allowedImageExts) then (.rejected, disk)
  else if maxFileSizeHardened < f.size then (.rejected, disk)
  else
    let staged := newPath :: disk
    if validateAndSecureImage f then (.accepted newPath, staged)
    else (.rejected, staged.erase newPath)

/-- MAX file size of the legacy profile router: 5 MB. -/
def maxFileSizeLegacy : Nat := 5 * 1024 * 1024

/-- Model of the JavaScript string startsWith used by the legacy
fileFilter, as a prefix test on the character lists. -/
def mimeHasPrefix (m pre : String) : Bool :=
  List.isPrefixOf pre.data m.data

/-- The legacy upload route: its multer fileFilter only asks whether the
client-declared mimetype starts with image/, there is no content
sniffing stage, and an accepted file is kept and linked as the avatar. -/
def legacyUpload (f : UploadFile) (disk : List String) (newPath : String) :
    UploadResult × List String :=
  if !(mimeHasPrefix f.declaredMime "image/") then (.rejected, disk)
  else if maxFileSizeLegacy < f.size then (.rejected, disk)
  else (.accepted newPath, newPath :: disk)

/-! ## FavoritesSet (the hardened profile router) -/

/-- State the favorites routes touch: the authenticated user's favorites
array and the set of existing post ids. -/
structure FavState where
  favorites : List String
  posts : List String
deriving DecidableEq, Repr

inductive FavResult where
  | ok
  | conflict
  | notFound
deriving DecidableEq, Repr

/-- POST favorites/:postId — Post.exists is checked first (404), then
membership of user.favorites (409), else push and save. -/
def addFavorite (s : FavState) (postId : String) : FavResult × FavState :=
  if !(postId ∈ s.posts) then (.notFound, s)
  else if postId ∈ s.favorites then (.conflict, s)
  else (.ok, { s with favorites := s.favorites ++ [postId] })

/-- DELETE favorites/:postId — indexOf then splice of the first
occurrence; an absent pair is a 409. -/
def removeFavorite (s : FavState) (postId : String) : FavResult × FavState :=
  if !(postId ∈ s.favorites) then (.conflict, s)
  else (.ok, { s with favorites := s.favorites.erase postId })

/-! ## Claims about CredentialStore -/

/-- Claim C8: for every password p, verifying p against hash(p) returns
true, and for every q different from p, verifying q against hash(p)
returns false (bcrypt modelled as collision-free). -/
theorem c8_password_verify_roundtrip (p q : String) (hne : q ≠ p) :
    comparePassword p (preSaveHashPassword p) = true ∧
    comparePassword q (preSaveHashPassword p) = false := by
  constructor
  · simp [comparePassword, bcryptCompare, preSaveHashPassword, bcryptHash]
  · simp [comparePassword, bcryptCompare, preSaveHashPassword, bcryptHash,
      BcryptHash.mk.injEq]
    exact fun h => hne h.symm

/-- Claim C8 witness at a concrete password pair. -/
theorem c8_password_verify_roundtrip_witness :
    comparePassword "Passw0rd1" (preSaveHashPassword "Passw0rd1") = true ∧
    comparePassword "wrongpass" (preSaveHashPassword "Passw0rd1") = false :=
  c8_password_verify_roundtrip "Passw0rd1" "wrongpass" (by decide)

/-! ## Claims about OTPChallenge -/

/-- Claim C3 counterexample: a record with 3 attempts whose expiry has
also passed is answered Expired, not Exhausted, even though the
candidate matches the stored hash — the expiry check runs first. -/
theorem c3_exhausted_counterexample :
    3 ≤ (OTPRec.mk "a@b.com" (bcryptHash "123456" 10) 1000 3 false).attempts ∧
    bcryptCompare "123456" (OTPRec.mk "a@b.com" (bcryptHash "123456" 10) 1000 3 false).otp = true ∧
    verifyOtp "a@b.com" "123456" 2000
      [OTPRec.mk "a@b.com" (bcryptHash "123456" 10) 1000 3 false] =
      (.Expired, [OTPRec.mk "a@b.com" (bcryptHash "123456" 10) 1000 3 false]) ∧
    OtpOutcome.Expired ≠ OtpOutcome.Exhausted := by
  refine ⟨by decide, by decide, by decide, by decide⟩

/-- Claim C3 (amended): when the unused record for an identity has an
attempt counter of at least 3 and is not yet expired, a verify call
returns Exhausted and leaves the store unchanged, whatever the candidate
code is (so even when it matches) — the exhaustion check precedes the
hash comparison; an expired record is answered Expired instead because
the expiry check runs first. -/
theorem c3_exhaustion_before_compare (e cand : String) (now : Nat)
    (store : List OTPRec) (r : OTPRec)
    (hfind : findUnused e store = some r)
    (hexp : ¬ r.expiresAt < now) (hatt : 3 ≤ r.attempts) :
    verifyOtp e cand now store = (.Exhausted, store) := by
  induction store with
  | nil => simp [findUnused] at hfind
  | cons h t ih =>
    by_cases hm : otpMatches e h
    · rw [findUnused, List.find?_cons_of_pos _ hm] at hfind
      cases hfind
      simp [verifyOtp, hm, hexp, hatt]
    · rw [findUnused, List.find?_cons_of_neg _ hm] at hfind
      have := ih hfind
      simp [verifyOtp, hm, this]

/-- Claim C3 witness: a not-yet-expired record at the attempt cap is
answered Exhausted even for a matching candidate. -/
theorem c3_exhaustion_before_compare_witness :
    verifyOtp "a@b.com" "111111" 1000
      [OTPRec.mk "a@b.com" (bcryptHash "111111" 10) 5000 3 false] =
      (.Exhausted, [OTPRec.mk "a@b.com" (bcryptHash "111111" 10) 5000 3 false]) :=
  c3_exhaustion_before_compare "a@b.com" "111111" 1000
    [OTPRec.mk "a@b.com" (bcryptHash "111111" 10) 5000 3 false]
    (OTPRec.mk "a@b.com" (bcryptHash "111111" 10) 5000 3 false)
    (by decide) (by decide) (by decide)

/-- Claim C10: a verify call that answers NotFound, Expired or Exhausted
leaves the store exactly as it was; an Invalid answer rewrites only the
found record, bumping attempts by one on a failed comparison and
touching nothing else; a Verified answer rewrites only the found record,
setting used on a successful comparison and touching nothing else. -/
theorem c10_reject_leaves_record_unchanged (e cand : String) (now : Nat)
    (store : List OTPRec) :
    ((verifyOtp e cand now store).1 = .NotFound ∨
     (verifyOtp e cand now store).1 = .Expired ∨
     (verifyOtp e cand now store).1 = .Exhausted →
       (verifyOtp e cand now store).2 = store) ∧
    ((verifyOtp e cand now store).1 = .Invalid →
       ∃ pre r post, store = pre ++ r :: post ∧
         bcryptCompare cand r.otp = false ∧
         (verifyOtp e cand now store).2 =
           pre ++ { r with attempts := r.attempts + 1 } :: post) ∧
    ((verifyOtp e cand now store).1 = .Verified →
       ∃ pre r post, store = pre ++ r :: post ∧
         bcryptCompare cand r.otp = true ∧
         (verifyOtp e cand now store).2 =
           pre ++ { r with used := true } :: post) := by
  induction store with
  | nil => refine ⟨fun _ => rfl, fun h => by simp [verifyOtp] at h,
      fun h => by simp [verifyOtp] at h⟩
  | cons h t ih =>
    by_cases hm : otpMatches e h
    · by_cases hx : h.expiresAt < now
      · refine ⟨fun _ => by simp [verifyOtp, hm, hx],
          fun hc => by simp [verifyOtp, hm, hx] at hc,
          fun hc => by simp [verifyOtp, hm, hx] at hc⟩
      · by_cases ha : 3 ≤ h.attempts
        · refine ⟨fun _ => by simp [verifyOtp, hm, hx, ha],
            fun hc => by simp [verifyOtp, hm, hx, ha] at hc,
            fun hc => by simp [verifyOtp, hm, hx, ha] at hc⟩
        · by_cases hb : bcryptCompare cand h.otp
          · refine ⟨fun hc => by simp [verifyOtp, hm, hx, ha, hb] at hc,
              fun hc => by simp [verifyOtp, hm, hx, ha, hb] at hc,
              fun _ => ⟨[], h, t, rfl, hb, by simp [verifyOtp, hm, hx, ha, hb]⟩⟩
          · refine ⟨fun hc => by simp [verifyOtp, hm, hx, ha, hb] at hc,
              fun _ => ⟨[], h, t, rfl, by simpa using hb,
                by simp [verifyOtp, hm, hx, ha, hb]⟩,
              fun hc => by simp [verifyOtp, hm, hx, ha, hb] at hc⟩
    · have hfst : (verifyOtp e cand now (h :: t)).1 = (verifyOtp e cand now t).1 := by
        simp [verifyOtp, hm]
      have hsnd : (verifyOtp e cand now (h :: t)).2 = h :: (verifyOtp e cand now t).2 := by
        simp [verifyOtp, hm]
      refine ⟨fun hc => ?_, fun hc => ?_, fun hc => ?_⟩
      · rw [hsnd, ih.1 (by rw [← hfst]; exact hc)]
      · obtain ⟨pre, r, post, hsplit, hcmp, hres⟩ := ih.2.1 (by rw [← hfst]; exact hc)
        exact ⟨h :: pre, r, post, by simp [hsplit], hcmp, by simp [hsnd, hres]⟩
      · obtain ⟨pre, r, post, hsplit, hcmp, hres⟩ := ih.2.2 (by rw [← hfst]; exact hc)
        exact ⟨h :: pre, r, post, by simp [hsplit], hcmp, by simp [hsnd, hres]⟩

/-- Claim C10 witness: a NotFound verify against an empty store leaves
it unchanged. -/
theorem c10_reject_leaves_record_unchanged_witness :
    (verifyOtp "a@b.com" "123456" 0 []).2 = [] :=
  (c10_reject_leaves_record_unchanged "a@b.com" "123456" 0 []).1 (by decide)

/-- Claim C5: a verify call on an unused record past its expiry answers
Expired with the store untouched, for every candidate code; the derived
Expired state (like Verified and Exhausted) is terminal as time only
moves forward; and a Verified answer can only arise from a record that
was still in the live Issued state, so no terminal record is ever
re-verified. -/
theorem c5_expired_rejects_and_terminal (e cand : String) (now now2 : Nat)
    (store : List OTPRec) (r : OTPRec) :
    (findUnused e store = some r → r.expiresAt < now →
       verifyOtp e cand now store = (.Expired, store)) ∧
    (otpTerminal (otpStatus r now) → now ≤ now2 →
       otpTerminal (otpStatus r now2)) ∧
    ((verifyOtp e cand now store).1 = .Verified →
       ∃ q, findUnused e store = some q ∧ otpStatus q now = .Issued) := by
  refine ⟨?_, ?_, ?_⟩
  · intro hfind hx
    induction store with
    | nil => simp [findUnused] at hfind
    | cons h t ih =>
      by_cases hm : otpMatches e h
      · rw [findUnused, List.find?_cons_of_pos _ hm] at hfind
        cases hfind
        simp [verifyOtp, hm, hx]
      · rw [findUnused, List.find?_cons_of_neg _ hm] at hfind
        have := ih hfind
        simp [verifyOtp, hm, this]
  · intro hterm hle
    by_cases hu : r.used
    · simp [otpStatus, hu, otpTerminal]
    · by_cases hx2 : r.expiresAt < now2
      · simp [otpStatus, hu, hx2, otpTerminal]
      · have hx : ¬ r.expiresAt < now := fun h => hx2 (lt_of_lt_of_le h hle)
        by_cases ha : 3 ≤ r.attempts
        · simp [otpStatus, hu, hx2, ha, otpTerminal]
        · simp [otpStatus, hu, hx, ha, otpTerminal] at hterm
  · intro hv
    induction store with
    | nil => simp [verifyOtp] at hv
    | cons h t ih =>
      by_cases hm : otpMatches e h
      · by_cases hx : h.expiresAt < now
        · simp [verifyOtp, hm, hx] at hv
        · by_cases ha : 3 ≤ h.attempts
          · simp [verifyOtp, hm, hx, ha] at hv
          · by_cases hb : bcryptCompare cand h.otp
            · refine ⟨h, ?_, ?_⟩
              · rw [findUnused, List.find?_cons_of_pos _ hm]
              · have hu : h.used = false := by
                  simp [otpMatches] at hm
                  exact hm.2
                simp [otpStatus, hu, hx, ha]
            · simp [verifyOtp, hm, hx, ha, hb] at hv
      · have hfst : (verifyOtp e cand now (h :: t)).1 =
            (verifyOtp e cand now t).1 := by
          simp [verifyOtp, hm]
        obtain ⟨q, hq, hs⟩ := ih (by rw [← hfst]; exact hv)
        refine ⟨q, ?_, hs⟩
        rw [findUnused, List.find?_cons_of_neg _ hm]
        exact hq

/-- Claim C5 witness: an expired unused record is answered Expired with
the store untouched. -/
theorem c5_expired_rejects_and_terminal_witness :
    verifyOtp "a@b.com" "123456" 2000
      [OTPRec.mk "a@b.com" (bcryptHash "123456" 10) 1000 0 false] =
      (.Expired, [OTPRec.mk "a@b.com" (bcryptHash "123456" 10) 1000 0 false]) :=
  (c5_expired_rejects_and_terminal "a@b.com" "123456" 2000 2000
    [OTPRec.mk "a@b.com" (bcryptHash "123456" 10) 1000 0 false]
    (OTPRec.mk "a@b.com" (bcryptHash "123456" 10) 1000 0 false)).1
    (by decide) (by decide)

/-- Records surviving the deleteMany of send-otp never match the
findOne filter for that email. -/
theorem otp_deleted_no_match (e : String) (store : List OTPRec) :
    ∀ r ∈ store.filter (fun r => !(otpMatches e r)), otpMatches e r = false := by
  intro r hr
  have := List.of_mem_filter hr
  simpa using this

/-- The verify-otp walk skips a prefix of non-matching records. -/
theorem verifyOtp_append_of_no_match (e cand : String) (now : Nat)
    (pre rest : List OTPRec)
    (hpre : ∀ r ∈ pre, otpMatches e r = false) :
    verifyOtp e cand now (pre ++ rest) =
      ((verifyOtp e cand now rest).1, pre ++ (verifyOtp e cand now rest).2) := by
  induction pre with
  | nil => simp
  | cons h t ih =>
    have hm : otpMatches e h = false := hpre h (by simp)
    have hrec := ih (fun r hr => hpre r (by simp [hr]))
    simp [verifyOtp, hm, hrec]

/-- After the deleteMany of send-otp no unused record for the email
remains from before. -/
theorem otp_filter_after_delete (e : String) (store : List OTPRec) :
    (store.filter (fun r => !(otpMatches e r))).filter (otpMatches e) = [] := by
  induction store with
  | nil => rfl
  | cons h t ih =>
    by_cases hm : otpMatches e h <;> simp [List.filter_cons, hm, ih]

/-- The deleteMany of send-otp for one email leaves every other email's
unused records alone. -/
theorem otp_filter_delete_other (e e2 : String) (hne : e2 ≠ e)
    (store : List OTPRec) :
    (store.filter (fun r => !(otpMatches e r))).filter (otpMatches e2) =
      store.filter (otpMatches e2) := by
  induction store with
  | nil => rfl
  | cons h t ih =>
    by_cases hm : otpMatches e h
    · have h2 : otpMatches e2 h = false := by
        simp [otpMatches] at hm ⊢
        intro he2
        rw [hm.1] at he2
        exact absurd he2.symm hne
      simp [List.filter_cons, hm, h2, ih]
    · simp [List.filter_cons, hm, ih]

/-- Claim C4: issuing a new OTP deletes every existing unused record for
the identity before inserting the fresh one, so afterwards exactly one
unused record exists for it, other identities' unused records are
untouched, and the previously issued code (distinct from the new one)
can no longer verify. -/
theorem c4_issue_invalidates_previous (e e2 code oldCode : String)
    (now now2 : Nat) (store : List OTPRec) :
    countUnused e (sendOtp e code now store) = 1 ∧
    (e2 ≠ e → countUnused e2 (sendOtp e code now store) = countUnused e2 store) ∧
    (oldCode ≠ code →
       (verifyOtp e oldCode now2 (sendOtp e code now store)).1 ≠ .Verified) := by
  refine ⟨?_, ?_, ?_⟩
  · unfold countUnused sendOtp
    rw [List.filter_append, otp_filter_after_delete]
    simp [otpMatches, freshOtpRec]
  · intro hne
    unfold countUnused sendOtp
    rw [List.filter_append, otp_filter_delete_other e e2 hne]
    have hf : otpMatches e2 (freshOtpRec e code now) = false := by
      simp [otpMatches, freshOtpRec]
      exact fun h => absurd h.symm hne
    simp [hf]
  · intro hne hv
    rw [sendOtp, verifyOtp_append_of_no_match e oldCode now2 _ _
      (otp_deleted_no_match e store)] at hv
    have hb : bcryptCompare oldCode (bcryptHash code 10) = false := by
      simp [bcryptCompare, bcryptHash, BcryptHash.mk.injEq]
      exact fun h => hne h.symm
    by_cases hx : now + 600000 < now2
    · simp [verifyOtp, otpMatches, freshOtpRec, hx] at hv
    · simp [verifyOtp, otpMatches, freshOtpRec, hx, hb] at hv

/-- Claim C4 witness at a concrete identity, codes and empty store. -/
theorem c4_issue_invalidates_previous_witness :
    countUnused "a@b.com" (sendOtp "a@b.com" "654321" 0 []) = 1 ∧
    countUnused "c@d.com" (sendOtp "a@b.com" "654321" 0 []) =
      countUnused "c@d.com" [] ∧
    (verifyOtp "a@b.com" "123456" 1 (sendOtp "a@b.com" "654321" 0 [])).1 ≠
      .Verified :=
  ⟨(c4_issue_invalidates_previous "a@b.com" "c@d.com" "654321" "123456" 0 1 []).1,
   (c4_issue_invalidates_previous "a@b.com" "c@d.com" "654321" "123456" 0 1 []).2.1
     (by decide),
   (c4_issue_invalidates_previous "a@b.com" "c@d.com" "654321" "123456" 0 1 []).2.2
     (by decide)⟩

/-! ## Claims about TokenService -/

/-- A falsy JWT_SECRET makes the JavaScript or-default take the default. -/
theorem jsOr_of_falsy (env : Option String) (d : String)
    (h : jsFalsy env = true) : jsOr env d = d := by
  cases env with
  | none => rfl
  | some s =>
    simp [jsFalsy] at h
    simp [jsOr, h]

/-- A non-empty configured secret survives the JavaScript or-default. -/
theorem jsOr_of_some (s d : String) (hs : s ≠ "") : jsOr (some s) d = s := by
  simp [jsOr, hs]

/-- Claim C1 counterexample: with no JWT_SECRET configured, the legacy
login still issues a token — signed with the constant fallback secret —
instead of failing with a configuration error. -/
theorem c1_fallback_secret_counterexample :
    legacyLogin none
      [UserRec.mk "u1" "a@b.com" "customer" (bcryptHash "Passw0rd1" 10)]
      "a@b.com" "Passw0rd1" 0 =
      .success (jwtSign "u1" "customer" "fallback_jwt_secret" 604800 0) ∧
    (jwtSign "u1" "customer" "fallback_jwt_secret" 604800 0).key =
      some "fallback_jwt_secret" ∧
    legacyLogin none
      [UserRec.mk "u1" "a@b.com" "customer" (bcryptHash "Passw0rd1" 10)]
      "a@b.com" "Passw0rd1" 0 ≠ .serverError := by
  refine ⟨by decide, by decide, by decide⟩

/-- Claim C1 (amended): with a falsy JWT_SECRET the primary auth
middleware fails with a configuration error and the hardened login's
signing fails (the library throws, no fallback), but the legacy
register/login signing silently signs with the constant secret
fallback_jwt_secret and the secondary auth middleware silently verifies
against that same fallback. -/
theorem c1_secret_handling_amended (env : Option String) (t : Jwt) (now : Nat)
    (users : List UserRec) (email pw : String) (u : UserRec)
    (hfind : users.find? (fun v => v.email == email) = some u)
    (hpw : bcryptCompare pw u.passwordHash = true)
    (hsecret : jsFalsy env = true) :
    authV1 env (some t) now = .configError ∧
    hardenedLogin env users email pw now = .serverError ∧
    legacyLogin env users email pw now =
      .success (jwtSign u.id u.role "fallback_jwt_secret" 604800 now) ∧
    authV2 env (some (jwtSign u.id u.role "fallback_jwt_secret" 604800 now)) now =
      .authorized (Claims.mk u.id u.role now (now + 604800)) := by
  refine ⟨?_, ?_, ?_, ?_⟩
  · simp [authV1, hsecret]
  · simp [hardenedLogin, hfind, hpw, signAccessToken, hsecret]
  · simp [legacyLogin, hfind, hpw, jsOr_of_falsy env _ hsecret]
  · simp [authV2, jsOr_of_falsy env _ hsecret, jwtVerify, jwtSign, defaultHSAlgs]

/-- Claim C1 witness at concrete users and environment. -/
theorem c1_secret_handling_amended_witness :
    authV1 none (some (jwtSign "x" "customer" "s" 900 0)) 0 = .configError ∧
    hardenedLogin none
      [UserRec.mk "u1" "a@b.com" "customer" (bcryptHash "Passw0rd1" 10)]
      "a@b.com" "Passw0rd1" 0 = .serverError ∧
    legacyLogin none
      [UserRec.mk "u1" "a@b.com" "customer" (bcryptHash "Passw0rd1" 10)]
      "a@b.com" "Passw0rd1" 0 =
      .success (jwtSign "u1" "customer" "fallback_jwt_secret" 604800 0) ∧
    authV2 none (some (jwtSign "u1" "customer" "fallback_jwt_secret" 604800 0)) 0 =
      .authorized (Claims.mk "u1" "customer" 0 (0 + 604800)) :=
  c1_secret_handling_amended none (jwtSign "x" "customer" "s" 900 0) 0
    [UserRec.mk "u1" "a@b.com" "customer" (bcryptHash "Passw0rd1" 10)]
    "a@b.com" "Passw0rd1"
    (UserRec.mk "u1" "a@b.com" "customer" (bcryptHash "Passw0rd1" 10))
    (by decide) (by decide) (by decide)

/-- Claim C2 counterexample: the secondary auth middleware, which calls
jwt.verify without an algorithms option, accepts a token bearing HS384 —
an algorithm other than the pinned HS256 — when it is signed with the
effective secret. -/
theorem c2_alg_confusion_counterexample :
    (Jwt.mk .HS384 (Claims.mk "u1" "customer" 0 900) (some "server-secret")).alg ≠
      Alg.HS256 ∧
    authV2 (some "server-secret")
      (some (Jwt.mk .HS384 (Claims.mk "u1" "customer" 0 900)
        (some "server-secret"))) 0 =
      .authorized (Claims.mk "u1" "customer" 0 900) := by
  refine ⟨by decide, by decide⟩

/-- Claim C2 (amended): the primary auth middleware answers TOKEN_INVALID
for every token signed with a different secret or bearing any algorithm
other than the pinned HS256 (including the unsigned one); the secondary
middleware still rejects wrong-secret and unsigned tokens, but it pins
no algorithm, so HS384/HS512 tokens signed with its effective secret
are accepted (the counterexample). -/
theorem c2_pinned_algorithm_amended (s : String) (t : Jwt) (now : Nat)
    (env : Option String) (hs : s ≠ "") :
    ((t.alg ≠ .HS256 ∨ t.key ≠ some s) →
       authV1 (some s) (some t) now = .tokenInvalid) ∧
    ((t.alg = .AlgNone ∨ t.key ≠ some (jsOr env "fallback_jwt_secret")) →
       ∀ c, authV2 env (some t) now ≠ .authorized c) := by
  have hfalsy : jsFalsy (some s) = false := by simp [jsFalsy, hs]
  have hor : jsOr (some s) "" = s := jsOr_of_some s "" hs
  constructor
  · intro h
    rcases h with halg | hkey
    · simp [authV1, hfalsy, hor, jwtVerify, halg]
    · by_cases halg : t.alg = Alg.HS256
      · simp [authV1, hfalsy, hor, jwtVerify, halg, hkey]
      · simp [authV1, hfalsy, hor, jwtVerify, halg]
  · intro h c
    rcases h with halg | hkey
    · have hmem : t.alg ∉ defaultHSAlgs := by simp [defaultHSAlgs, halg]
      simp [authV2, jwtVerify, hmem]
    · by_cases hmem : t.alg ∈ defaultHSAlgs
      · simp [authV2, jwtVerify, hmem, hkey]
      · simp [authV2, jwtVerify, hmem]

/-- Claim C2 witness: a wrong-secret HS256 token is TOKEN_INVALID for the
primary middleware and not authorized by the secondary one. -/
theorem c2_pinned_algorithm_amended_witness :
    authV1 (some "server-secret")
      (some (Jwt.mk .HS256 (Claims.mk "u1" "customer" 0 900) (some "other"))) 0 =
      .tokenInvalid ∧
    authV2 (some "server-secret")
      (some (Jwt.mk .HS256 (Claims.mk "u1" "customer" 0 900) (some "other"))) 0 ≠
      .authorized (Claims.mk "u1" "customer" 0 900) :=
  ⟨(c2_pinned_algorithm_amended "server-secret"
      (Jwt.mk .HS256 (Claims.mk "u1" "customer" 0 900) (some "other")) 0
      (some "server-secret") (by decide)).1 (Or.inr (by decide)),
   (c2_pinned_algorithm_amended "server-secret"
      (Jwt.mk .HS256 (Claims.mk "u1" "customer" 0 900) (some "other")) 0
      (some "server-secret") (by decide)).2 (Or.inr (by decide))
     (Claims.mk "u1" "customer" 0 900)⟩

/-- Claim C6 counterexample: a successful login through the legacy route
issues a token whose exp minus iat is 604800 seconds (7 days), not 900. -/
theorem c6_ttl_counterexample :
    legacyLogin (some "server-secret")
      [UserRec.mk "u1" "a@b.com" "customer" (bcryptHash "Passw0rd1" 10)]
      "a@b.com" "Passw0rd1" 5 =
      .success (jwtSign "u1" "customer" "server-secret" 604800 5) ∧
    (jwtSign "u1" "customer" "server-secret" 604800 5).claims.exp -
      (jwtSign "u1" "customer" "server-secret" 604800 5).claims.iat ≠ 900 := by
  refine ⟨by decide, by decide⟩

/-- Claim C6 (amended): a successful login through the hardened route
issues a token with exp minus iat equal to 900 seconds and a role claim
equal to the stored role; a successful login through the legacy routes
issues a token with exp minus iat equal to 604800 seconds (7 days),
also carrying the stored role. -/
theorem c6_token_ttl_amended (env : Option String) (users : List UserRec)
    (email pw s : String) (now : Nat) (u : UserRec)
    (hfind : users.find? (fun v => v.email == email) = some u)
    (hpw : bcryptCompare pw u.passwordHash = true)
    (henv : env = some s) (hs : s ≠ "") :
    hardenedLogin env users email pw now =
      .success (jwtSign u.id u.role s 900 now) ∧
    (jwtSign u.id u.role s 900 now).claims.exp -
      (jwtSign u.id u.role s 900 now).claims.iat = 900 ∧
    (jwtSign u.id u.role s 900 now).claims.role = u.role ∧
    legacyLogin env users email pw now =
      .success (jwtSign u.id u.role s 604800 now) ∧
    (jwtSign u.id u.role s 604800 now).claims.exp -
      (jwtSign u.id u.role s 604800 now).claims.iat = 604800 ∧
    (jwtSign u.id u.role s 604800 now).claims.role = u.role := by
  subst henv
  have hfalsy : jsFalsy (some s) = false := by simp [jsFalsy, hs]
  refine ⟨?_, ?_, rfl, ?_, ?_, rfl⟩
  · simp [hardenedLogin, hfind, hpw, signAccessToken, hfalsy, jsOr_of_some s _ hs]
  · simp [jwtSign]
  · simp [legacyLogin, hfind, hpw, jsOr_of_some s _ hs]
  · simp [jwtSign]

/-- Claim C6 witness at a concrete user and secret. -/
theorem c6_token_ttl_amended_witness :
    hardenedLogin (some "server-secret")
      [UserRec.mk "u1" "a@b.com" "customer" (bcryptHash "Passw0rd1" 12)]
      "a@b.com" "Passw0rd1" 7 =
      .success (jwtSign "u1" "customer" "server-secret" 900 7) ∧
    (jwtSign "u1" "customer" "server-secret" 900 7).claims.exp -
      (jwtSign "u1" "customer" "server-secret" 900 7).claims.iat = 900 ∧
    (jwtSign "u1" "customer" "server-secret" 900 7).claims.role = "customer" ∧
    legacyLogin (some "server-secret")
      [UserRec.mk "u1" "a@b.com" "customer" (bcryptHash "Passw0rd1" 12)]
      "a@b.com" "Passw0rd1" 7 =
      .success (jwtSign "u1" "customer" "server-secret" 604800 7) ∧
    (jwtSign "u1" "customer" "server-secret" 604800 7).claims.exp -
      (jwtSign "u1" "customer" "server-secret" 604800 7).claims.iat = 604800 ∧
    (jwtSign "u1" "customer" "server-secret" 604800 7).claims.role = "customer" :=
  c6_token_ttl_amended (some "server-secret")
    [UserRec.mk "u1" "a@b.com" "customer" (bcryptHash "Passw0rd1" 12)]
    "a@b.com" "Passw0rd1" "server-secret" 7
    (UserRec.mk "u1" "a@b.com" "customer" (bcryptHash "Passw0rd1" 12))
    (by decide) (by decide) rfl (by decide)

/-! ## Claims about UploadValidator -/

/-- Claim C7 counterexample: a file named with the allowed .jpg
extension and declared image/jpeg, whose leading bytes match no image
type, is accepted by the legacy upload route — which never sniffs
content — and its artifact remains on the backing store. -/
theorem c7_sniffing_counterexample :
    ".jpg" ∈ allowedImageExts ∧
    validateAndSecureImage (UploadFile.mk ".jpg" "image/jpeg" none 100) = false ∧
    legacyUpload (UploadFile.mk ".jpg" "image/jpeg" none 100) []
      "uploads/u1-1-x.jpg" =
      (.accepted "uploads/u1-1-x.jpg", ["uploads/u1-1-x.jpg"]) := by
  refine ⟨by decide, by decide, by decide⟩

/-- Claim C7 (amended): in the hardened profile router an upload whose
name carries an allowed image extension but whose leading content bytes
match no allow-listed image type is rejected at the content-sniffing
stage with the staged artifact unlinked, so the backing store is exactly
as before; the legacy profile router has no sniffing stage and keeps
such a file (the counterexample). -/
theorem c7_sniff_reject_removes_artifact (f : UploadFile) (disk : List String)
    (p : String) (hext : f.originalExt ∈ allowedImageExts)
    (hsniff : validateAndSecureImage f = false) :
    hardenedUpload f disk p = (.rejected, disk) := by
  unfold hardenedUpload
  by_cases hsz : maxFileSizeHardened < f.size
  · simp [hext, hsz]
  · simp [hext, hsz, hsniff, List.erase_cons_head]

/-- Claim C7 witness at a concrete fake image file. -/
theorem c7_sniff_reject_removes_artifact_witness :
    hardenedUpload (UploadFile.mk ".jpg" "image/jpeg" none 100) []
      "uploads/avatars/a.jpg" = (.rejected, []) :=
  c7_sniff_reject_removes_artifact (UploadFile.mk ".jpg" "image/jpeg" none 100)
    [] "uploads/avatars/a.jpg" (by decide) (by decide)

/-! ## Claims about FavoritesSet -/

/-- Claim C9 counterexample: a favorite pair can be present while its
post has been deleted; adding it again then answers NotFound — the
Post.exists check runs before the duplicate check — not Conflict as the
claim states for every already-present pair. -/
theorem c9_favorites_counterexample :
    "p1" ∈ (FavState.mk ["p1"] []).favorites ∧
    addFavorite (FavState.mk ["p1"] []) "p1" =
      (.notFound, FavState.mk ["p1"] []) ∧
    FavResult.notFound ≠ FavResult.conflict := by
  refine ⟨by decide, by decide, by decide⟩

/-- Claim C9 (amended): when the referenced post still exists, adding an
already-present pair answers Conflict and leaves the favorites
unchanged (if the post was deleted the add answers NotFound instead,
also unchanged); removing an absent pair answers Conflict rather than
silently succeeding; and both operations preserve the no-duplicates
invariant of the favorites set. -/
theorem c9_favorites_conflict_amended (s : FavState) (pid : String) :
    (pid ∈ s.posts → pid ∈ s.favorites → addFavorite s pid = (.conflict, s)) ∧
    (pid ∉ s.posts → addFavorite s pid = (.notFound, s)) ∧
    (pid ∉ s.favorites → removeFavorite s pid = (.conflict, s)) ∧
    (s.favorites.Nodup →
       (addFavorite s pid).2.favorites.Nodup ∧
       (removeFavorite s pid).2.favorites.Nodup) := by
  refine ⟨?_, ?_, ?_, ?_⟩
  · intro hp hf
    simp [addFavorite, hp, hf]
  · intro hp
    simp [addFavorite, hp]
  · intro hf
    simp [removeFavorite, hf]
  · intro hnd
    constructor
    · by_cases hp : pid ∈ s.posts
      · by_cases hf : pid ∈ s.favorites
        · simp [addFavorite, hp, hf, hnd]
        · simp [addFavorite, hp, hf, List.nodup_append, hnd]
      · simp [addFavorite, hp, hnd]
    · by_cases hf : pid ∈ s.favorites
      · simp [removeFavorite, hf]
        exact hnd.erase pid
      · simp [removeFavorite, hf, hnd]

/-- Claim C9 witness: a duplicate add conflicts, an absent remove
conflicts. -/
theorem c9_favorites_conflict_amended_witness :
    addFavorite (FavState.mk ["p1"] ["p1"]) "p1" =
      (.conflict, FavState.mk ["p1"] ["p1"]) ∧
    removeFavorite (FavState.mk [] ["p1"]) "p2" =
      (.conflict, FavState.mk [] ["p1"]) :=
  ⟨(c9_favorites_conflict_amended (FavState.mk ["p1"] ["p1"]) "p1").1
     (by decide) (by decide),
   (c9_favorites_conflict_amended (FavState.mk [] ["p1"]) "p2").2.2.1
     (by decide)⟩
